import Mathlib

/-!
Verification of the open62541 example server (`examples/server.c`): the
data-source bindings (time, temperature, LED), the release callbacks, the
LED write path, the demo-node population loop, the startup/teardown
sequences of `main`, and the reader/writer lock discipline of the LED
provider under `UA_MULTITHREADING`.

The C code is embedded shallowly: globals become explicit state arguments,
`exit` becomes an explicit outcome constructor, file handles become `Bool`
open-flags plus event lists, and libc calls (`fscanf`, the pthread rwlock)
are modelled by their documented behaviour at the call site.
-/

namespace Server

/-- OPC UA status code `UA_STATUSCODE_GOOD`. -/
def UA_STATUSCODE_GOOD : Nat := 0x00000000

/-- OPC UA status code `UA_STATUSCODE_BADINDEXRANGEINVALID`. -/
def UA_STATUSCODE_BADINDEXRANGEINVALID : Nat := 0x80360000

/-- OPC UA status code `UA_STATUSCODE_BADOUTOFMEMORY`. -/
def UA_STATUSCODE_BADOUTOFMEMORY : Nat := 0x80030000

/-- A numeric sub-range selector.  The read/write callbacks in `server.c`
only ever test the `UA_NumericRange*` pointer for being non-NULL, so its
fields are irrelevant; a NULL pointer is modelled as `Option.none` at the
use sites. -/
structure UA_NumericRange where
  dimensionsSize : Nat := 0
  deriving DecidableEq

/-- The `UA_TYPES[...]` descriptor a variant's `type` field points to.
Only the three descriptors used by the data sources appear. -/
inductive UA_TypeTag where
  | boolean
  | dateTime
  | double
  deriving DecidableEq

/-- The payload behind a variant's `data` pointer. `UA_DateTime` is an
integer tick count; the temperature `UA_Double` is modelled as a rational
(its exact numeric value is never at issue in the claims). -/
inductive VariantData where
  | dateTime (t : Int)
  | double (q : Rat)
  | boolean (b : Bool)
  deriving DecidableEq

/-- `UA_Variant`, restricted to the fields `server.c` touches.
`data = none` is a NULL data pointer. -/
structure UA_Variant where
  type : Option UA_TypeTag := none
  arrayLength : Int := 0
  data : Option VariantData := none
  arrayDimensionsSize : Int := 0
  deriving DecidableEq

/-- `UA_DataValue`, restricted to the fields `server.c` touches.  The
runtime hands the read callbacks a zero-initialized value, so all flags
default to `false`. -/
structure UA_DataValue where
  hasValue : Bool := false
  hasStatus : Bool := false
  hasSourceTimestamp : Bool := false
  value : UA_Variant := {}
  status : Nat := 0
  sourceTimestamp : Int := 0
  deriving DecidableEq

/-- Outcome of running a C function that may call `exit`. -/
inductive CResult (α : Type) where
  | exited (code : Nat)
  | ok (a : α)
  deriving DecidableEq

/-- Project the normal-return payload of a `CResult`. -/
def CResult.getOk {α : Type} : CResult α → Option α
  | .exited _ => none
  | .ok a => some a

/-! ### Read-only data source: `readTimeData` (server.c lines 38-60)

`UA_DateTime_new` may fail; the allocator outcome is the explicit argument
`allocOk`.  `UA_DateTime_now()` is the explicit argument `now`. -/

/-- `readTimeData`.  Returns the status code and the updated `value`
out-parameter. -/
def readTimeData (allocOk : Bool) (now : Int) (sourceTimeStamp : Bool)
    (range : Option UA_NumericRange) (value : UA_DataValue) :
    Nat × UA_DataValue :=
  match range with
  | some _ =>
    (UA_STATUSCODE_GOOD,
      { value with hasStatus := true, status := UA_STATUSCODE_BADINDEXRANGEINVALID })
  | none =>
    if !allocOk then
      (UA_STATUSCODE_BADOUTOFMEMORY, value)
    else
      let v := { value with
        value := { type := some UA_TypeTag.dateTime, arrayLength := -1,
                   data := some (VariantData.dateTime now),
                   arrayDimensionsSize := -1 },
        hasValue := true }
      if sourceTimeStamp then
        (UA_STATUSCODE_GOOD,
          { v with hasSourceTimestamp := true, sourceTimestamp := now })
      else
        (UA_STATUSCODE_GOOD, v)

/-! ### Read-only CPU temperature: `readTemperature` (server.c lines 71-101) -/

/-- What `fscanf(temperatureFile, "%lf", ...)` finds in the sensor file:
either a leading numeric field (`numeric`, scanf returns 1) or text with no
parsable number (`nonNumeric`, scanf returns 0/EOF). -/
inductive TempFile where
  | numeric (q : Rat)
  | nonNumeric
  deriving DecidableEq

/-- `readTemperature`.  On a parse failure the C code calls `exit(1)`
(after a log warning), hence the `CResult`. -/
def readTemperature (allocOk : Bool) (fileContent : TempFile)
    (sourceTimeStamp : Bool) (range : Option UA_NumericRange)
    (value : UA_DataValue) : CResult (Nat × UA_DataValue) :=
  match range with
  | some _ =>
    .ok (UA_STATUSCODE_GOOD,
      { value with hasStatus := true, status := UA_STATUSCODE_BADINDEXRANGEINVALID })
  | none =>
    if !allocOk then
      .ok (UA_STATUSCODE_BADOUTOFMEMORY, value)
    else
      match fileContent with
      | .nonNumeric => .exited 1
      | .numeric q =>
        .ok (UA_STATUSCODE_GOOD,
          { value with
            value := { type := some UA_TypeTag.double, arrayLength := -1,
                       data := some (VariantData.double (q / 1000)),
                       arrayDimensionsSize := -1 },
            hasValue := true })

/-! ### Read-write status LED: `readLedStatus` (server.c lines 118-142)

The global `ledStatus` is passed explicitly; the variant's
`data = &ledStatus` pointer is modelled by the boolean it dereferences to.
The rwlock acquisition is treated separately in the concurrency model
below. -/

/-- `readLedStatus`. -/
def readLedStatus (now : Int) (ledStatus : Bool) (sourceTimeStamp : Bool)
    (range : Option UA_NumericRange) (value : UA_DataValue) :
    Nat × UA_DataValue :=
  match range with
  | some _ =>
    (UA_STATUSCODE_GOOD,
      { value with hasStatus := true, status := UA_STATUSCODE_BADINDEXRANGEINVALID })
  | none =>
    let v := { value with
      value := { type := some UA_TypeTag.boolean, arrayLength := -1,
                 data := some (VariantData.boolean ledStatus),
                 arrayDimensionsSize := -1 },
      hasValue := true }
    if sourceTimeStamp then
      (UA_STATUSCODE_GOOD,
        { v with sourceTimestamp := now, hasSourceTimestamp := true })
    else
      (UA_STATUSCODE_GOOD, v)

/-! ### Release callbacks (server.c lines 62-65, 103-106, 144-154)

A release callback may free heap memory and (for the LED source under
`UA_MULTITHREADING`) drop the read lock.  Those side effects are recorded
as an event list; the callback's mutation of the `UA_DataValue` is the
returned record. -/

/-- Side effects a release callback can have. -/
inductive ReleaseEffect where
  | free
  | unlock
  deriving DecidableEq

/-- `releaseTimeData`: frees the heap `UA_DateTime` iff the value was
populated. -/
def releaseTimeData (value : UA_DataValue) : UA_DataValue × List ReleaseEffect :=
  if value.hasValue then (value, [ReleaseEffect.free]) else (value, [])

/-- `releaseTemperature`: frees the heap `UA_Double` iff the value was
populated. -/
def releaseTemperature (value : UA_DataValue) : UA_DataValue × List ReleaseEffect :=
  if value.hasValue then (value, [ReleaseEffect.free]) else (value, [])

/-- `releaseLedStatus`: early-returns on an empty value; otherwise clears
the variant's data pointer and drops the read lock. -/
def releaseLedStatus (value : UA_DataValue) : UA_DataValue × List ReleaseEffect :=
  if !value.hasValue then (value, [])
  else
    ({ value with value := { value.value with arrayLength := -1, data := none } },
     [ReleaseEffect.unlock])

/-! ### `writeLedStatus` (server.c lines 156-181)

State touched by the write: the global `ledStatus` plus the two file
handles (`triggerFile`, `ledFile`), modelled as open-flags; the `fseek`
/`fprintf`/`fflush` calls on them are recorded as an event list. -/

/-- The LED provider's global state. -/
structure LedState where
  ledStatus : Bool := false
  triggerOpen : Bool := false
  ledOpen : Bool := false
  deriving DecidableEq

/-- File operations `writeLedStatus` performs on the backing files. -/
inductive FileOp where
  | seekTrigger
  | writeBrightness (s : String)
  | flushBrightness
  deriving DecidableEq

/-- `writeLedStatus`.  `data` is the write request's `UA_Variant.data`
pointer (`none` = NULL); `range` the sub-range selector pointer.  Returns
the status code, the updated global state and the file operations
performed. -/
def writeLedStatus (st : LedState) (data : Option Bool)
    (range : Option UA_NumericRange) : Nat × LedState × List FileOp :=
  match range with
  | some _ => (UA_STATUSCODE_BADINDEXRANGEINVALID, st, [])
  | none =>
    let led := match data with
      | some b => b
      | none => st.ledStatus
    let st' := { st with ledStatus := led }
    let ops₁ := if st'.triggerOpen then [FileOp.seekTrigger] else []
    let ops₂ :=
      if st'.ledOpen then
        [FileOp.writeBrightness (if led then "1" else "0"), FileOp.flushBrightness]
      else []
    (UA_STATUSCODE_GOOD, st', ops₁ ++ ops₂)

/-! ### Startup (`main`, server.c lines 213-326, up to `UA_Server_run`)

`main` registers the time source unconditionally, opens the sensor file
and registers the temperature source iff `fopen` succeeds, opens the LED
files and registers the LED source iff they are accessible and writable,
adds the static nodes, and only then calls `UA_Server_run`.  Crucially, no
branch before `UA_Server_run` reads or parses the sensor file's contents:
`fscanf` occurs only inside `readTemperature`. -/

/-- The host filesystem facts `main` consults before entering the run
loop.  `tempFileContent` is what a later `fscanf` would find; startup
itself never looks at it. -/
structure HostFS where
  tempFileReadable : Bool := false
  tempFileContent : TempFile := TempFile.nonNumeric
  ledFilesPresent : Bool := false
  ledFilesWritable : Bool := false
  deriving DecidableEq

/-- What the startup phase of `main` ends in: either it reaches the
blocking `UA_Server_run` call (entering the `Running` state) with the
given provider handles open, or some branch terminated the process
first. -/
inductive StartupOutcome where
  | enteredRunning (tempOpen triggerOpen ledOpen : Bool)
  | terminated (code : Nat)
  deriving DecidableEq

/-- Whether the startup phase terminated the process before `Running`. -/
def StartupOutcome.isTerminated : StartupOutcome → Bool
  | .enteredRunning _ _ _ => false
  | .terminated _ => true

/-- The startup phase of `main` (everything before `UA_Server_run`).
Faithful to server.c lines 213-326: the only conditionals are the
`fopen`/`access` successes; no branch exits. -/
def startupPhase (fs : HostFS) : StartupOutcome :=
  let tempOpen := fs.tempFileReadable
  let ledOk := fs.ledFilesPresent && fs.ledFilesWritable
  StartupOutcome.enteredRunning tempOpen ledOk ledOk

/-! ### Teardown (`main`, server.c lines 326-349, after `UA_Server_run`)

After the run loop returns, `main` closes `temperatureFile`, then rewinds
`triggerFile`, rewrites it with the default trigger mode `"mmc0"` and
closes it, then closes `ledFile` — each guarded by the handle being
open. -/

/-- The three backing files, in their order of acquisition in `main`:
`temperatureFile` (line 239), `triggerFile` (line 255), `ledFile`
(line 256). -/
inductive BackingFile where
  | temperature
  | trigger
  | led
  deriving DecidableEq

/-- Acquisition order of the backing files in `main`. -/
def acquisitionOrder : List BackingFile :=
  [BackingFile.temperature, BackingFile.trigger, BackingFile.led]

/-- Events of the teardown sequence. -/
inductive ShutdownEvent where
  | seekTrigger
  | writeTrigger (s : String)
  | close (f : BackingFile)
  deriving DecidableEq

/-- The teardown sequence of `main`, given which handles are open. -/
def teardown (tempOpen triggerOpen ledOpen : Bool) : List ShutdownEvent :=
  (if tempOpen then [ShutdownEvent.close BackingFile.temperature] else []) ++
  (if triggerOpen then
    [ShutdownEvent.seekTrigger, ShutdownEvent.writeTrigger "mmc0",
     ShutdownEvent.close BackingFile.trigger]
   else []) ++
  (if ledOpen then [ShutdownEvent.close BackingFile.led] else [])

/-- The sequence of file closes within a teardown trace. -/
def closeOrder (events : List ShutdownEvent) : List BackingFile :=
  events.filterMap fun e =>
    match e with
    | .close f => some f
    | _ => none

/-! ### Demo-node population loop (`main`, server.c lines 295-323)

The loop runs a type index from 0 while `UA_IS_BUILTIN` holds, skips
`UA_TYPES_VARIANT` and `UA_TYPES_DIAGNOSTICINFO`, and for every other type
adds one scalar variable node and one length-10 array variable node, each
under a fresh id `++id` from a counter seeded at 51000.  The loop is kept
parametric in the number of built-in types and the two skipped enum
ordinals, which live in the generated `open62541.h`, not in this file. -/

/-- Reserved id of the "Demo" folder node. -/
def DEMOID : Nat := 50000

/-- Reserved id of the "Scalar" folder node. -/
def SCALARID : Nat := 50001

/-- Reserved id of the "Array" folder node. -/
def ARRAYID : Nat := 50002

/-- A variable node created by the demo loop: its numeric id, parent
folder id, the built-in type ordinal it instantiates, and whether it is
the scalar or the length-10 array node. -/
structure DemoNode where
  nodeId : Nat
  parentId : Nat
  typeIdx : Nat
  isArray : Bool
  arrayLen : Option Nat
  deriving DecidableEq

/-- One iteration of the demo loop body: `acc` is the running id counter
and the nodes created so far, `ty` the current type ordinal.  The skip
test mirrors `type == UA_TYPES_VARIANT || type == UA_TYPES_DIAGNOSTICINFO`. -/
def demoStep (vIdx dIdx : Nat) (acc : Nat × List DemoNode) (ty : Nat) :
    Nat × List DemoNode :=
  if ty == vIdx || ty == dIdx then acc
  else
    (acc.1 + 2,
     acc.2 ++ [⟨acc.1 + 1, SCALARID, ty, false, none⟩,
               ⟨acc.1 + 2, ARRAYID, ty, true, some 10⟩])

/-- The demo loop: iterate the body over the built-in type ordinals
`0, ..., numBuiltin - 1`, counter seeded at 51000, and return the created
nodes. -/
def populateDemoNodes (numBuiltin vIdx dIdx : Nat) : List DemoNode :=
  ((List.range numBuiltin).foldl (demoStep vIdx dIdx) (51000, [])).2

/-- The supported type ordinals: built-in ones minus the two skipped
meta-types. -/
def supportedTypes (numBuiltin vIdx dIdx : Nat) : List Nat :=
  (List.range numBuiltin).filter fun t => !(t == vIdx || t == dIdx)

/-! ### LED provider concurrency (server.c lines 111-181, `UA_MULTITHREADING`)

Under `UA_MULTITHREADING` the LED callbacks bracket their bodies with the
pthread rwlock `writeLock`: `readLedStatus` takes the lock in shared mode
before exposing `&ledStatus` (line 129) and the matching
`releaseLedStatus` drops it (line 152); `writeLedStatus` takes it in
exclusive mode (line 161), updates `ledStatus`, performs the file
propagation (lines 166-176), and only then unlocks (line 178).

The system is modelled by counting threads in each program phase; the
rwlock semantics (shared acquisition blocked while a writer holds the
lock, exclusive acquisition blocked while any holder exists) guards the
transitions. -/

/-- Global state of the LED provider with `nR` reader and `nW` writer
threads: how many readers are before the shared lock (`rStart`), holding
it between `readLedStatus` and `releaseLedStatus` (`rHold`, observing the
value through `&ledStatus`), or finished (`rDone`); how many writers are
before the exclusive lock (`wStart`), at the in-memory update
(`wUpd`), in the file-propagation step (`wProp`), or finished
(`wDone`); plus the rwlock's own state and the shared `ledStatus`. -/
structure LedSys where
  rStart : Nat
  rHold : Nat
  rDone : Nat
  wStart : Nat
  wUpd : Nat
  wProp : Nat
  wDone : Nat
  sharedHolders : Nat
  exclusiveHeld : Bool
  ledStatus : Bool
  deriving DecidableEq

/-- The initial state: all threads before their lock acquisition, lock
free. -/
def initLedSys (nR nW : Nat) (b : Bool) : LedSys :=
  { rStart := nR, rHold := 0, rDone := 0,
    wStart := nW, wUpd := 0, wProp := 0, wDone := 0,
    sharedHolders := 0, exclusiveHeld := false, ledStatus := b }

/-- One interleaving step of the LED readers and writers. -/
inductive LedStep : LedSys → LedSys → Prop where
  | rdlock (s : LedSys) (h : 0 < s.rStart) (hw : s.exclusiveHeld = false) :
      LedStep s { s with rStart := s.rStart - 1, rHold := s.rHold + 1,
                         sharedHolders := s.sharedHolders + 1 }
  | release (s : LedSys) (h : 0 < s.rHold) :
      LedStep s { s with rHold := s.rHold - 1, rDone := s.rDone + 1,
                         sharedHolders := s.sharedHolders - 1 }
  | wrlock (s : LedSys) (h : 0 < s.wStart) (hw : s.exclusiveHeld = false)
      (hr : s.sharedHolders = 0) :
      LedStep s { s with wStart := s.wStart - 1, wUpd := s.wUpd + 1,
                         exclusiveHeld := true }
  | update (s : LedSys) (b : Bool) (h : 0 < s.wUpd) :
      LedStep s { s with wUpd := s.wUpd - 1, wProp := s.wProp + 1,
                         ledStatus := b }
  | wunlock (s : LedSys) (h : 0 < s.wProp) :
      LedStep s { s with wProp := s.wProp - 1, wDone := s.wDone + 1,
                         exclusiveHeld := false }

/-- States reachable from the initial LED system by any interleaving. -/
def LedReachable (nR nW : Nat) (b : Bool) (s : LedSys) : Prop :=
  Relation.ReflTransGen LedStep (initLedSys nR nW b) s

/-! ## Theorems -/

/-- C1: every read callback, on a non-NULL range selector, returns the
GOOD status code, flags `hasStatus` with status `BADINDEXRANGEINVALID`,
and produces no value data — `hasValue` stays unset. -/
theorem read_range_error_soft_fail (allocOk sourceTimeStamp ledStatus : Bool)
    (now : Int) (fc : TempFile) (r : UA_NumericRange) (dv : UA_DataValue)
    (h : dv.hasValue = false) :
    readTimeData allocOk now sourceTimeStamp (some r) dv =
      (UA_STATUSCODE_GOOD,
       { dv with hasStatus := true, status := UA_STATUSCODE_BADINDEXRANGEINVALID }) ∧
    readTemperature allocOk fc sourceTimeStamp (some r) dv =
      CResult.ok (UA_STATUSCODE_GOOD,
       { dv with hasStatus := true, status := UA_STATUSCODE_BADINDEXRANGEINVALID }) ∧
    readLedStatus now ledStatus sourceTimeStamp (some r) dv =
      (UA_STATUSCODE_GOOD,
       { dv with hasStatus := true, status := UA_STATUSCODE_BADINDEXRANGEINVALID }) ∧
    ({ dv with
       hasStatus := true,
       status := UA_STATUSCODE_BADINDEXRANGEINVALID } : UA_DataValue).hasValue = false :=
  ⟨rfl, rfl, rfl, h⟩

/-- A fresh zero-initialized `UA_DataValue`, as the runtime hands it to a
read callback. -/
def emptyDV : UA_DataValue := {}

/-- Witness for `read_range_error_soft_fail` at a fresh zero-initialized
data value. -/
theorem read_range_error_soft_fail_witness :
    emptyDV.hasValue = false ∧
    (readTimeData true 0 false (some {}) emptyDV =
      (UA_STATUSCODE_GOOD,
       { emptyDV with
         hasStatus := true,
         status := UA_STATUSCODE_BADINDEXRANGEINVALID }) ∧
    readTemperature true TempFile.nonNumeric false (some {}) emptyDV =
      CResult.ok (UA_STATUSCODE_GOOD,
       { emptyDV with
         hasStatus := true,
         status := UA_STATUSCODE_BADINDEXRANGEINVALID }) ∧
    readLedStatus 0 false false (some {}) emptyDV =
      (UA_STATUSCODE_GOOD,
       { emptyDV with
         hasStatus := true,
         status := UA_STATUSCODE_BADINDEXRANGEINVALID }) ∧
    ({ emptyDV with
       hasStatus := true,
       status := UA_STATUSCODE_BADINDEXRANGEINVALID } : UA_DataValue).hasValue = false) :=
  ⟨rfl, read_range_error_soft_fail true false false 0 TempFile.nonNumeric {} emptyDV rfl⟩

/-- C2 (code bug): a successful temperature read with `sourceTimeStamp`
set returns GOOD with a value but does NOT set `hasSourceTimestamp` —
`readTemperature` ignores its `sourceTimeStamp` argument, unlike the time
and LED read callbacks.  The claim (and spec section 4.1) requires the
timestamp to be embedded. -/
theorem readTemperature_ignores_wantsTimestamp :
    (readTemperature true (TempFile.numeric 42000) true none {}).getOk.map
        (fun p => (p.1, p.2.hasValue, p.2.hasSourceTimestamp))
      = some (UA_STATUSCODE_GOOD, true, false) ∧
    (readTimeData true 7 true none {}).2.hasSourceTimestamp = true ∧
    (readLedStatus 7 false true none {}).2.hasSourceTimestamp = true :=
  ⟨rfl, rfl, rfl⟩

/-- C3: `writeLedStatus` with a non-NULL range selector returns
`BADINDEXRANGEINVALID`, leaves the LED state unchanged and performs no
file operation. -/
theorem writeLedStatus_range_rejected (st : LedState) (data : Option Bool)
    (r : UA_NumericRange) :
    writeLedStatus st data (some r) = (UA_STATUSCODE_BADINDEXRANGEINVALID, st, []) :=
  rfl

/-- The filesystem state of claim C4: sensor file present and readable
but holding non-numeric text, no LED hardware. -/
def badSensorFS : HostFS :=
  { tempFileReadable := true, tempFileContent := TempFile.nonNumeric,
    ledFilesPresent := false, ledFilesWritable := false }

/-- C4 (counterexample): with the sensor file present but non-numeric,
the startup phase of `main` does NOT terminate the process — it reaches
`UA_Server_run` (the `Running` state), because no code before the run
loop parses the sensor file. -/
theorem startup_bad_sensor_reaches_running :
    (startupPhase badSensorFS).isTerminated = false :=
  rfl

/-- C4 (amended): with the sensor file present but non-numeric, startup
enters `Running` with the temperature provider registered, and the
process terminates (exit code 1) only when the temperature data source is
first read without a range selector. -/
theorem bad_sensor_exits_on_first_read (sourceTimeStamp : Bool) :
    startupPhase badSensorFS = StartupOutcome.enteredRunning true false false ∧
    readTemperature true badSensorFS.tempFileContent sourceTimeStamp none {} =
      CResult.exited 1 :=
  ⟨rfl, rfl⟩

/-- C5: each release callback is a no-op on a data value that carries no
value: the value is unchanged, nothing is freed, no lock is dropped. -/
theorem release_empty_noop (dv : UA_DataValue) (h : dv.hasValue = false) :
    releaseTimeData dv = (dv, []) ∧
    releaseTemperature dv = (dv, []) ∧
    releaseLedStatus dv = (dv, []) := by
  simp [releaseTimeData, releaseTemperature, releaseLedStatus, h]

/-- Witness for `release_empty_noop` at a fresh zero-initialized data
value. -/
theorem release_empty_noop_witness :
    ({} : UA_DataValue).hasValue = false ∧
    (releaseTimeData {} = ({}, []) ∧
     releaseTemperature {} = ({}, []) ∧
     releaseLedStatus {} = ({}, [])) :=
  ⟨rfl, release_empty_noop {} rfl⟩

/-- C6: writing a boolean `b` (no selector) through `writeLedStatus` and
then reading through `readLedStatus` (no selector) yields a snapshot that
has a value and whose value data is exactly `b`; instantiating `b` at
`true` and `false` gives the round-trip law of the claim. -/
theorem led_write_read_roundtrip (st : LedState) (b : Bool) (now : Int)
    (sourceTimeStamp : Bool) (dv : UA_DataValue) :
    (writeLedStatus st (some b) none).1 = UA_STATUSCODE_GOOD ∧
    ((writeLedStatus st (some b) none).2.1).ledStatus = b ∧
    (readLedStatus now ((writeLedStatus st (some b) none).2.1).ledStatus
        sourceTimeStamp none dv).2.hasValue = true ∧
    (readLedStatus now ((writeLedStatus st (some b) none).2.1).ledStatus
        sourceTimeStamp none dv).2.value.data = some (VariantData.boolean b) := by
  cases sourceTimeStamp <;>
    simp [writeLedStatus, readLedStatus, UA_STATUSCODE_GOOD]

/-- C8 (counterexample): with all three backing files open, the close
sequence of `main`'s teardown is acquisition order (temperature, trigger,
led), not the reverse of acquisition order as the claim states. -/
theorem teardown_not_reverse_order :
    closeOrder (teardown true true true) ≠ acquisitionOrder.reverse ∧
    closeOrder (teardown true true true) = acquisitionOrder := by
  constructor <;> decide

/-- C8 (amended): the teardown closes the open backing files in the SAME
order as their acquisition (the close sequence is an order-preserving
subsequence of the acquisition order), closing each open handle exactly
once, and rewrites the trigger file with the default trigger mode string
`"mmc0"` strictly before closing its handle. -/
theorem teardown_close_discipline (tempOpen triggerOpen ledOpen : Bool)
    (h : triggerOpen = true) :
    List.Sublist (closeOrder (teardown tempOpen triggerOpen ledOpen)) acquisitionOrder ∧
    (closeOrder (teardown tempOpen triggerOpen ledOpen)).count BackingFile.temperature
      = (if tempOpen then 1 else 0) ∧
    (closeOrder (teardown tempOpen triggerOpen ledOpen)).count BackingFile.trigger = 1 ∧
    (closeOrder (teardown tempOpen triggerOpen ledOpen)).count BackingFile.led
      = (if ledOpen then 1 else 0) ∧
    ∃ i j, i < j ∧
      (teardown tempOpen triggerOpen ledOpen).get? i
        = some (ShutdownEvent.writeTrigger "mmc0") ∧
      (teardown tempOpen triggerOpen ledOpen).get? j
        = some (ShutdownEvent.close BackingFile.trigger) := by
  subst h
  cases tempOpen <;> cases ledOpen
  · exact ⟨by decide, by decide, by decide, by decide, 1, 2, by decide, by decide, by decide⟩
  · exact ⟨by decide, by decide, by decide, by decide, 1, 2, by decide, by decide, by decide⟩
  · exact ⟨by decide, by decide, by decide, by decide, 2, 3, by decide, by decide, by decide⟩
  · exact ⟨by decide, by decide, by decide, by decide, 2, 3, by decide, by decide, by decide⟩

/-- Witness for `teardown_close_discipline` with all three files open. -/
theorem teardown_close_discipline_witness :
    (true : Bool) = true ∧
    (List.Sublist (closeOrder (teardown true true true)) acquisitionOrder ∧
     (closeOrder (teardown true true true)).count BackingFile.temperature
       = (if true then 1 else 0) ∧
     (closeOrder (teardown true true true)).count BackingFile.trigger = 1 ∧
     (closeOrder (teardown true true true)).count BackingFile.led
       = (if true then 1 else 0) ∧
     ∃ i j, i < j ∧
       (teardown true true true).get? i = some (ShutdownEvent.writeTrigger "mmc0") ∧
       (teardown true true true).get? j
         = some (ShutdownEvent.close BackingFile.trigger)) :=
  ⟨rfl, teardown_close_discipline true true true rfl⟩

/-- C10: `writeLedStatus` with no selector and a NULL value-data pointer
returns GOOD, leaves the in-memory LED state (and the whole provider
state) unchanged, and still rewrites the brightness file — with the
previous, unchanged value. -/
theorem writeLedStatus_null_data (st : LedState) (h : st.ledOpen = true) :
    (writeLedStatus st none none).1 = UA_STATUSCODE_GOOD ∧
    (writeLedStatus st none none).2.1 = st ∧
    FileOp.writeBrightness (if st.ledStatus then "1" else "0")
      ∈ (writeLedStatus st none none).2.2 := by
  rcases st with ⟨ls, tg, lo⟩
  cases ls <;> cases tg <;> revert h <;> cases lo <;> decide

/-- Witness for `writeLedStatus_null_data` with the LED file open and the
LED currently on. -/
theorem writeLedStatus_null_data_witness :
    (⟨true, true, true⟩ : LedState).ledOpen = true ∧
    ((writeLedStatus ⟨true, true, true⟩ none none).1 = UA_STATUSCODE_GOOD ∧
     (writeLedStatus ⟨true, true, true⟩ none none).2.1 = (⟨true, true, true⟩ : LedState) ∧
     FileOp.writeBrightness (if (⟨true, true, true⟩ : LedState).ledStatus then "1" else "0")
       ∈ (writeLedStatus ⟨true, true, true⟩ none none).2.2) :=
  ⟨rfl, writeLedStatus_null_data ⟨true, true, true⟩ rfl⟩

/-! ### Characterization of the demo loop -/

/-- Recursive characterization of the nodes the demo loop creates,
starting with counter value `c`, for the remaining type ordinals. -/
def demoList (vIdx dIdx : Nat) : Nat → List Nat → List DemoNode
  | _, [] => []
  | c, t :: ts =>
    if t == vIdx || t == dIdx then demoList vIdx dIdx c ts
    else ⟨c + 1, SCALARID, t, false, none⟩ :: ⟨c + 2, ARRAYID, t, true, some 10⟩ ::
         demoList vIdx dIdx (c + 2) ts

/-- The number of kept (non-skipped) type ordinals in a list. -/
def keptCount (vIdx dIdx : Nat) (l : List Nat) : Nat :=
  (l.filter fun t => !(t == vIdx || t == dIdx)).length

theorem demoList_cons_skip (vIdx dIdx c t : Nat) (ts : List Nat)
    (hb : (t == vIdx || t == dIdx) = true) :
    demoList vIdx dIdx c (t :: ts) = demoList vIdx dIdx c ts := by
  simp [demoList, hb]

theorem demoList_cons_keep (vIdx dIdx c t : Nat) (ts : List Nat)
    (hb : (t == vIdx || t == dIdx) = false) :
    demoList vIdx dIdx c (t :: ts)
      = ⟨c + 1, SCALARID, t, false, none⟩ :: ⟨c + 2, ARRAYID, t, true, some 10⟩ ::
        demoList vIdx dIdx (c + 2) ts := by
  simp [demoList, hb]

theorem keptCount_cons_skip (vIdx dIdx t : Nat) (ts : List Nat)
    (hb : (t == vIdx || t == dIdx) = true) :
    keptCount vIdx dIdx (t :: ts) = keptCount vIdx dIdx ts := by
  have h' : t = vIdx ∨ t = dIdx := by simpa using hb
  rcases h' with rfl | rfl <;> simp [keptCount, List.filter_cons]

theorem keptCount_cons_keep (vIdx dIdx t : Nat) (ts : List Nat)
    (hb : (t == vIdx || t == dIdx) = false) :
    keptCount vIdx dIdx (t :: ts) = keptCount vIdx dIdx ts + 1 := by
  have h' : ¬t = vIdx ∧ ¬t = dIdx := by simpa using hb
  simp [keptCount, List.filter_cons, h']

theorem demo_foldl_eq (vIdx dIdx : Nat) (l : List Nat) :
    ∀ (c : Nat) (ns : List DemoNode),
      l.foldl (demoStep vIdx dIdx) (c, ns)
        = (c + 2 * keptCount vIdx dIdx l, ns ++ demoList vIdx dIdx c l) := by
  induction l with
  | nil => intro c ns; simp [demoList, keptCount]
  | cons t ts ih =>
    intro c ns
    rw [List.foldl_cons]
    cases hb : (t == vIdx || t == dIdx) with
    | true =>
      have hstep : demoStep vIdx dIdx (c, ns) t = (c, ns) := by
        simp [demoStep, hb]
      rw [hstep, ih c ns, demoList_cons_skip vIdx dIdx c t ts hb,
          keptCount_cons_skip vIdx dIdx t ts hb]
    | false =>
      have hstep : demoStep vIdx dIdx (c, ns) t
          = (c + 2, ns ++ [⟨c + 1, SCALARID, t, false, none⟩,
                           ⟨c + 2, ARRAYID, t, true, some 10⟩]) := by
        simp [demoStep, hb]
      rw [hstep, ih (c + 2), demoList_cons_keep vIdx dIdx c t ts hb,
          keptCount_cons_keep vIdx dIdx t ts hb]
      simp only [Prod.mk.injEq]
      constructor
      · omega
      · simp

/-- Node ids created by `demoList` form the contiguous ascending run
starting right above the counter seed. -/
theorem demoList_nodeIds (vIdx dIdx : Nat) (l : List Nat) :
    ∀ c, (demoList vIdx dIdx c l).map DemoNode.nodeId
      = List.range' (c + 1) (2 * keptCount vIdx dIdx l) := by
  induction l with
  | nil => intro c; simp [demoList, keptCount]
  | cons t ts ih =>
    intro c
    cases hb : (t == vIdx || t == dIdx) with
    | true =>
      rw [demoList_cons_skip vIdx dIdx c t ts hb,
          keptCount_cons_skip vIdx dIdx t ts hb]
      exact ih c
    | false =>
      rw [demoList_cons_keep vIdx dIdx c t ts hb,
          keptCount_cons_keep vIdx dIdx t ts hb]
      have h2 : 2 * (keptCount vIdx dIdx ts + 1)
          = 2 * keptCount vIdx dIdx ts + 1 + 1 := by omega
      rw [h2, List.range'_succ, List.range'_succ]
      simp [ih (c + 2)]

/-- Every node `demoList` creates instantiates one of the given type
ordinals, never a skipped one, and is either the scalar node under the
Scalar folder or the length-10 array node under the Array folder. -/
theorem demoList_shape (vIdx dIdx : Nat) (l : List Nat) :
    ∀ c, ∀ nd ∈ demoList vIdx dIdx c l,
      nd.typeIdx ∈ l ∧ nd.typeIdx ≠ vIdx ∧ nd.typeIdx ≠ dIdx ∧
      ((nd.isArray = false ∧ nd.parentId = SCALARID ∧ nd.arrayLen = none) ∨
       (nd.isArray = true ∧ nd.parentId = ARRAYID ∧ nd.arrayLen = some 10)) := by
  induction l with
  | nil => intro c nd hnd; simp [demoList] at hnd
  | cons t ts ih =>
    intro c nd hnd
    cases hb : (t == vIdx || t == dIdx) with
    | true =>
      rw [demoList_cons_skip vIdx dIdx c t ts hb] at hnd
      obtain ⟨h1, h2, h3, h4⟩ := ih c nd hnd
      exact ⟨List.mem_cons_of_mem _ h1, h2, h3, h4⟩
    | false =>
      have hne : t ≠ vIdx ∧ t ≠ dIdx := by
        constructor <;> intro hh <;> simp [hh] at hb
      rw [demoList_cons_keep vIdx dIdx c t ts hb] at hnd
      simp only [List.mem_cons] at hnd
      rcases hnd with rfl | rfl | hnd
      · exact ⟨List.mem_cons_self _ _, hne.1, hne.2, Or.inl ⟨rfl, rfl, rfl⟩⟩
      · exact ⟨List.mem_cons_self _ _, hne.1, hne.2, Or.inr ⟨rfl, rfl, rfl⟩⟩
      · obtain ⟨h1, h2, h3, h4⟩ := ih (c + 2) nd hnd
        exact ⟨List.mem_cons_of_mem _ h1, h2, h3, h4⟩

/-- For every kept type ordinal, `demoList` creates a scalar node and a
length-10 array node of that type. -/
theorem demoList_covers (vIdx dIdx : Nat) (l : List Nat) :
    ∀ c, ∀ t ∈ l, (t == vIdx || t == dIdx) = false →
      (∃ nd ∈ demoList vIdx dIdx c l,
        nd.typeIdx = t ∧ nd.isArray = false ∧ nd.parentId = SCALARID) ∧
      (∃ nd ∈ demoList vIdx dIdx c l,
        nd.typeIdx = t ∧ nd.isArray = true ∧ nd.parentId = ARRAYID ∧
        nd.arrayLen = some 10) := by
  induction l with
  | nil => intro c t ht; simp at ht
  | cons u ts ih =>
    intro c t ht hskip
    cases hb : (u == vIdx || u == dIdx) with
    | true =>
      rw [demoList_cons_skip vIdx dIdx c u ts hb]
      rcases List.mem_cons.mp ht with rfl | htts
      · rw [hskip] at hb; exact absurd hb (by simp)
      · exact ih c t htts hskip
    | false =>
      rw [demoList_cons_keep vIdx dIdx c u ts hb]
      rcases List.mem_cons.mp ht with rfl | htts
      · refine ⟨⟨⟨c + 1, SCALARID, t, false, none⟩, ?_, rfl, rfl, rfl⟩,
               ⟨⟨c + 2, ARRAYID, t, true, some 10⟩, ?_, rfl, rfl, rfl, rfl⟩⟩
        · exact List.mem_cons_self _ _
        · exact List.mem_cons_of_mem _ (List.mem_cons_self _ _)
      · obtain ⟨⟨n1, hn1, hp1⟩, ⟨n2, hn2, hp2⟩⟩ := ih (c + 2) t htts hskip
        exact ⟨⟨n1, List.mem_cons_of_mem _ (List.mem_cons_of_mem _ hn1), hp1⟩,
               ⟨n2, List.mem_cons_of_mem _ (List.mem_cons_of_mem _ hn2), hp2⟩⟩

/-- C7: for any number of built-in types and any two skipped meta-type
ordinals, the demo loop creates exactly 2N variable nodes where N is the
number of supported (non-skipped) built-in types; their numeric ids are
the consecutive counter values 51001, 51002, ... (monotonically
increasing, pairwise distinct, each strictly above the reserved ids
DEMOID = 50000, SCALARID = 50001 and ARRAYID = 50002 and above the seed
51000); no node instantiates a skipped meta-type; and every supported
type gets one scalar node under the Scalar folder and one length-10 array
node under the Array folder. -/
theorem demo_population_correct (numBuiltin vIdx dIdx : Nat) :
    (populateDemoNodes numBuiltin vIdx dIdx).length
      = 2 * (supportedTypes numBuiltin vIdx dIdx).length ∧
    (populateDemoNodes numBuiltin vIdx dIdx).map DemoNode.nodeId
      = List.range' 51001 (2 * (supportedTypes numBuiltin vIdx dIdx).length) ∧
    ((populateDemoNodes numBuiltin vIdx dIdx).map DemoNode.nodeId).Nodup ∧
    (∀ nd ∈ populateDemoNodes numBuiltin vIdx dIdx,
      DEMOID < nd.nodeId ∧ SCALARID < nd.nodeId ∧ ARRAYID < nd.nodeId ∧
      51000 < nd.nodeId) ∧
    (∀ nd ∈ populateDemoNodes numBuiltin vIdx dIdx,
      nd.typeIdx ≠ vIdx ∧ nd.typeIdx ≠ dIdx) ∧
    (∀ t ∈ supportedTypes numBuiltin vIdx dIdx,
      (∃ nd ∈ populateDemoNodes numBuiltin vIdx dIdx,
        nd.typeIdx = t ∧ nd.isArray = false ∧ nd.parentId = SCALARID) ∧
      (∃ nd ∈ populateDemoNodes numBuiltin vIdx dIdx,
        nd.typeIdx = t ∧ nd.isArray = true ∧ nd.parentId = ARRAYID ∧
        nd.arrayLen = some 10)) := by
  have hpop : populateDemoNodes numBuiltin vIdx dIdx
      = demoList vIdx dIdx 51000 (List.range numBuiltin) := by
    simp [populateDemoNodes, demo_foldl_eq vIdx dIdx (List.range numBuiltin) 51000 []]
  have hkeep : (supportedTypes numBuiltin vIdx dIdx).length
      = keptCount vIdx dIdx (List.range numBuiltin) := rfl
  have hids := demoList_nodeIds vIdx dIdx (List.range numBuiltin) 51000
  refine ⟨?_, ?_, ?_, ?_, ?_, ?_⟩
  · have := congrArg List.length hids
    simpa [hpop, hkeep] using this
  · rw [hpop, hkeep]; exact hids
  · rw [hpop, hids]; exact List.nodup_range' _ _
  · intro nd hnd
    rw [hpop] at hnd
    have hmem : nd.nodeId ∈ (demoList vIdx dIdx 51000 (List.range numBuiltin)).map
        DemoNode.nodeId := List.mem_map_of_mem _ hnd
    rw [hids] at hmem
    have hb := List.mem_range'_1.mp hmem
    have hD : DEMOID = 50000 := rfl
    have hS : SCALARID = 50001 := rfl
    have hA : ARRAYID = 50002 := rfl
    refine ⟨?_, ?_, ?_, ?_⟩ <;> omega
  · intro nd hnd
    rw [hpop] at hnd
    obtain ⟨-, h2, h3, -⟩ := demoList_shape vIdx dIdx (List.range numBuiltin) 51000 nd hnd
    exact ⟨h2, h3⟩
  · intro t ht
    obtain ⟨htr, htb⟩ := List.mem_filter.mp ht
    rw [hpop]
    exact demoList_covers vIdx dIdx (List.range numBuiltin) 51000 t htr
      (by revert htb; cases (t == vIdx || t == dIdx) <;> simp)

/-! ### The Guard-exclusivity invariant of the LED provider -/

/-- The inductive invariant of the LED system: the shared-holder count of
the rwlock is exactly the number of readers between `readLedStatus` and
`releaseLedStatus`; a writer is inside its critical section (update or
propagation) exactly when the lock is held exclusively; and exclusive
ownership excludes all shared holders. -/
def LedInv (s : LedSys) : Prop :=
  s.sharedHolders = s.rHold ∧
  s.wUpd + s.wProp = (if s.exclusiveHeld then 1 else 0) ∧
  (s.exclusiveHeld = true → s.sharedHolders = 0)

theorem ledInv_init (nR nW : Nat) (b : Bool) : LedInv (initLedSys nR nW b) := by
  simp [LedInv, initLedSys]

theorem ledInv_step {s s' : LedSys} (hs : LedInv s) (h : LedStep s s') :
    LedInv s' := by
  obtain ⟨h1, h2, h3⟩ := hs
  cases h with
  | rdlock hr hw =>
    refine ⟨?_, ?_, ?_⟩
    · show s.sharedHolders + 1 = s.rHold + 1
      omega
    · show s.wUpd + s.wProp = if s.exclusiveHeld then 1 else 0
      exact h2
    · intro hx
      have hx' : s.exclusiveHeld = true := hx
      rw [hw] at hx'
      cases hx'
  | release hr =>
    refine ⟨?_, ?_, ?_⟩
    · show s.sharedHolders - 1 = s.rHold - 1
      omega
    · show s.wUpd + s.wProp = if s.exclusiveHeld then 1 else 0
      exact h2
    · intro hx
      have h0 := h3 hx
      show s.sharedHolders - 1 = 0
      omega
  | wrlock hw hx hr =>
    refine ⟨?_, ?_, ?_⟩
    · show s.sharedHolders = s.rHold
      exact h1
    · show s.wUpd + 1 + s.wProp = 1
      have h0 : s.wUpd + s.wProp = 0 := by
        rw [hx] at h2
        simpa using h2
      omega
    · intro hx2
      show s.sharedHolders = 0
      exact hr
  | update b hu =>
    refine ⟨?_, ?_, ?_⟩
    · show s.sharedHolders = s.rHold
      exact h1
    · show s.wUpd - 1 + (s.wProp + 1) = if s.exclusiveHeld then 1 else 0
      omega
    · intro hx
      have hx' : s.exclusiveHeld = true := hx
      have h0 := h3 hx'
      show s.sharedHolders = 0
      exact h0
  | wunlock hp =>
    refine ⟨?_, ?_, ?_⟩
    · show s.sharedHolders = s.rHold
      exact h1
    · show s.wUpd + (s.wProp - 1) = 0
      cases hx2 : s.exclusiveHeld <;> rw [hx2] at h2 <;> simp at h2 <;> omega
    · intro hx
      have hx' : (false : Bool) = true := hx
      cases hx'

theorem ledInv_reachable {nR nW : Nat} {b : Bool} {s : LedSys}
    (h : LedReachable nR nW b s) : LedInv s := by
  induction h with
  | refl => exact ledInv_init nR nW b
  | tail _ hstep ih => exact ledInv_step ih hstep

/-- C9: in every state reachable by any interleaving of the LED readers
and writers, no reader is holding the value (between `readLedStatus` and
its matching `releaseLedStatus`) while a writer is in the OS-resource
propagation step: the lock's exclusivity makes the two phases mutually
exclusive. -/
theorem no_read_during_propagation (nR nW : Nat) (b : Bool) (s : LedSys)
    (h : LedReachable nR nW b s) : ¬(0 < s.rHold ∧ 0 < s.wProp) := by
  obtain ⟨h1, h2, h3⟩ := ledInv_reachable h
  rintro ⟨hr, hw⟩
  cases hx : s.exclusiveHeld
  · rw [hx] at h2
    simp at h2
    omega
  · have h0 := h3 hx
    omega

/-- Witness for `no_read_during_propagation` at the initial state of a
system with two readers and one writer. -/
theorem no_read_during_propagation_witness :
    ¬(0 < (initLedSys 2 1 false).rHold ∧ 0 < (initLedSys 2 1 false).wProp) :=
  no_read_during_propagation 2 1 false (initLedSys 2 1 false)
    Relation.ReflTransGen.refl

end Server
